import Mathlib

/-!
Verification of the input-event taxonomy and classification core
(`core/src/events.rs`): `MouseWheelDelta` unit normalization,
`ClipEvent` delivery classification, key-code resolution, gamepad-button
parsing and text-control classification.
-/

namespace RuffleEvents

/-- Model of Rust `f64` restricted to the values and operations this core
uses: `none` represents NaN, `some q` a finite value represented exactly as
a rational. The operations appearing in the source (`/`, `*`, `==`,
`is_nan`) are modelled below; infinities and rounding are not modelled
(every concrete value appearing in the claims is exactly representable and
every concrete operation is exact in IEEE 754 binary64). -/
abbrev F64 := Option ℚ

/-- Rust `f64::is_nan`. -/
def F64.is_nan : F64 → Bool
  | none => true
  | some _ => false

/-- Rust `f64 == f64`: NaN is equal to nothing (including itself); finite
values compare exactly. -/
def F64.beq : F64 → F64 → Bool
  | some x, some y => decide (x = y)
  | _, _ => false

/-- Rust `f64 * f64` on the modelled values: NaN propagates, finite values
multiply exactly. -/
def F64.mul : F64 → F64 → F64
  | some x, some y => some (x * y)
  | _, _ => none

/-- Rust `f64 / f64` on the modelled values: NaN propagates, division by
zero is collapsed to `none` (never exercised: the only divisor in the
source is the constant `100.0`), finite division is exact. -/
def F64.div : F64 → F64 → F64
  | some x, some y => if y = 0 then none else some (x / y)
  | _, _ => none

/-- `enum MouseWheelDelta { Lines(f64), Pixels(f64) }` — the distance
scrolled by the mouse wheel. -/
inductive MouseWheelDelta where
  | Lines (delta : F64)
  | Pixels (delta : F64)
deriving DecidableEq

/-- `MouseWheelDelta::MOUSE_WHEEL_SCALE = 100.0`. -/
def MouseWheelDelta.MOUSE_WHEEL_SCALE : F64 := some 100

/-- `MouseWheelDelta::lines`: the number of lines this delta represents. -/
def MouseWheelDelta.lines : MouseWheelDelta → F64
  | .Lines delta => delta
  | .Pixels delta => F64.div delta MouseWheelDelta.MOUSE_WHEEL_SCALE

/-- The stored `f64` magnitude of either variant (used to express the
NaN guard that the source writes as a four-way or-pattern with an
`is_nan` guard). -/
def MouseWheelDelta.value : MouseWheelDelta → F64
  | .Lines delta => delta
  | .Pixels delta => delta

/-- `impl PartialEq for MouseWheelDelta`: the source first matches all four
constructor combinations under the guard `s.is_nan() && r.is_nan()`
(returning `true`), then compares same-unit magnitudes directly and
cross-unit magnitudes after multiplying the lines side by
`MOUSE_WHEEL_SCALE`. -/
def MouseWheelDelta.eq (a b : MouseWheelDelta) : Bool :=
  if a.value.is_nan && b.value.is_nan then
    true
  else
    match a, b with
    | .Lines s, .Lines r => F64.beq s r
    | .Pixels s, .Pixels r => F64.beq s r
    | .Pixels s, .Lines r => F64.beq s (F64.mul r MouseWheelDelta.MOUSE_WHEEL_SCALE)
    | .Lines s, .Pixels r => F64.beq (F64.mul s MouseWheelDelta.MOUSE_WHEEL_SCALE) r

/-- Claim C5: `MouseWheelDelta` equality treats any two NaN-valued
magnitudes as equal regardless of their unit tags: for all four unit-tag
combinations, if both stored magnitudes are NaN the comparison returns
`true`; in particular `Lines(NaN) == Pixels(NaN)`. -/
theorem mouse_wheel_delta_nan_eq (x y : F64)
    (hx : x.is_nan = true) (hy : y.is_nan = true) :
    MouseWheelDelta.eq (.Lines x) (.Lines y) = true ∧
    MouseWheelDelta.eq (.Pixels x) (.Pixels y) = true ∧
    MouseWheelDelta.eq (.Lines x) (.Pixels y) = true ∧
    MouseWheelDelta.eq (.Pixels x) (.Lines y) = true := by
  cases x with
  | none =>
    cases y with
    | none => exact ⟨rfl, rfl, rfl, rfl⟩
    | some q => simp [F64.is_nan] at hy
  | some q => simp [F64.is_nan] at hx

/-- Witness for C5 at the concrete NaN values. -/
theorem mouse_wheel_delta_nan_eq_witness :
    MouseWheelDelta.eq (.Lines none) (.Lines none) = true ∧
    MouseWheelDelta.eq (.Pixels none) (.Pixels none) = true ∧
    MouseWheelDelta.eq (.Lines none) (.Pixels none) = true ∧
    MouseWheelDelta.eq (.Pixels none) (.Lines none) = true :=
  mouse_wheel_delta_nan_eq none none rfl rfl

/-- Claim C6: `MouseWheelDelta` normalizes units with the fixed factor
1 line = 100 pixels: `lines()` returns the stored magnitude unchanged for
`Lines(d)` and `d / 100.0` for `Pixels(d)` (so `Pixels(250.0).lines() =
2.5`), and cross-unit equality compares after unit conversion, so
`Pixels(100.0) == Lines(1.0)`. -/
theorem mouse_wheel_delta_lines_scale :
    (∀ d : F64, (MouseWheelDelta.Lines d).lines = d) ∧
    (∀ d : F64, (MouseWheelDelta.Pixels d).lines = F64.div d (some 100)) ∧
    (MouseWheelDelta.Pixels (some 250)).lines = some (5 / 2) ∧
    MouseWheelDelta.eq (.Pixels (some 100)) (.Lines (some 1)) = true := by
  refine ⟨fun d => rfl, fun d => rfl, ?_, ?_⟩
  · show F64.div (some 250) (some 100) = some (5 / 2)
    norm_num [F64.div]
  · show MouseWheelDelta.eq (.Pixels (some 100)) (.Lines (some 1)) = true
    norm_num [MouseWheelDelta.eq, MouseWheelDelta.value, F64.is_nan, F64.mul, F64.beq,
      MouseWheelDelta.MOUSE_WHEEL_SCALE]

/-- Modelled from the spec: `swf::ClipEventFlag` (the `swf` crate is not part
of this source tree) is a bitflags type over `u32`; per the spec the bit
values are defined by the external SWF binary-format specification, and each
named event flag is a distinct single bit. Only distinctness of the bits is
used by the claims; the positions below follow the SWF file-format order. -/
structure ClipEventFlag where
  bits : Nat
deriving DecidableEq

def ClipEventFlag.LOAD : ClipEventFlag := ⟨1 <<< 0⟩

def ClipEventFlag.ENTER_FRAME : ClipEventFlag := ⟨1 <<< 1⟩

def ClipEventFlag.UNLOAD : ClipEventFlag := ⟨1 <<< 2⟩

def ClipEventFlag.MOUSE_MOVE : ClipEventFlag := ⟨1 <<< 3⟩

def ClipEventFlag.MOUSE_DOWN : ClipEventFlag := ⟨1 <<< 4⟩

def ClipEventFlag.MOUSE_UP : ClipEventFlag := ⟨1 <<< 5⟩

def ClipEventFlag.KEY_DOWN : ClipEventFlag := ⟨1 <<< 6⟩

def ClipEventFlag.KEY_UP : ClipEventFlag := ⟨1 <<< 7⟩

def ClipEventFlag.DATA : ClipEventFlag := ⟨1 <<< 8⟩

def ClipEventFlag.INITIALIZE : ClipEventFlag := ⟨1 <<< 9⟩

def ClipEventFlag.PRESS : ClipEventFlag := ⟨1 <<< 10⟩

def ClipEventFlag.RELEASE : ClipEventFlag := ⟨1 <<< 11⟩

def ClipEventFlag.RELEASE_OUTSIDE : ClipEventFlag := ⟨1 <<< 12⟩

def ClipEventFlag.ROLL_OVER : ClipEventFlag := ⟨1 <<< 13⟩

def ClipEventFlag.ROLL_OUT : ClipEventFlag := ⟨1 <<< 14⟩

def ClipEventFlag.DRAG_OVER : ClipEventFlag := ⟨1 <<< 15⟩

def ClipEventFlag.DRAG_OUT : ClipEventFlag := ⟨1 <<< 16⟩

def ClipEventFlag.KEY_PRESS : ClipEventFlag := ⟨1 <<< 17⟩

def ClipEventFlag.CONSTRUCT : ClipEventFlag := ⟨1 <<< 18⟩

/-- The union of every defined flag bit (bitflags' set of valid bits). -/
def ClipEventFlag.ALL : ClipEventFlag :=
  ⟨ClipEventFlag.LOAD.bits ||| ClipEventFlag.ENTER_FRAME.bits |||
    ClipEventFlag.UNLOAD.bits ||| ClipEventFlag.MOUSE_MOVE.bits |||
    ClipEventFlag.MOUSE_DOWN.bits ||| ClipEventFlag.MOUSE_UP.bits |||
    ClipEventFlag.KEY_DOWN.bits ||| ClipEventFlag.KEY_UP.bits |||
    ClipEventFlag.DATA.bits ||| ClipEventFlag.INITIALIZE.bits |||
    ClipEventFlag.PRESS.bits ||| ClipEventFlag.RELEASE.bits |||
    ClipEventFlag.RELEASE_OUTSIDE.bits ||| ClipEventFlag.ROLL_OVER.bits |||
    ClipEventFlag.ROLL_OUT.bits ||| ClipEventFlag.DRAG_OVER.bits |||
    ClipEventFlag.DRAG_OUT.bits ||| ClipEventFlag.KEY_PRESS.bits |||
    ClipEventFlag.CONSTRUCT.bits⟩

/-- bitflags `from_bits_truncate`: keep only defined bits. -/
def ClipEventFlag.from_bits_truncate (n : Nat) : ClipEventFlag :=
  ⟨n &&& ClipEventFlag.ALL.bits⟩

/-- bitflags `intersects`: the two flag sets share at least one bit. -/
def ClipEventFlag.intersects (a b : ClipEventFlag) : Bool :=
  (a.bits &&& b.bits) != 0

/-- `enum ButtonKeyCode` — key codes for SWF4 keyPress button handlers,
with the discriminant values assigned in the source. -/
inductive ButtonKeyCode where
  | Unknown
  | Left
  | Right
  | Home
  | End
  | Insert
  | Delete
  | Backspace
  | Return
  | Up
  | Down
  | PgUp
  | PgDown
  | Tab
  | Escape
  | Space
  | Exclamation
  | DoubleQuote
  | NumberSign
  | Dollar
  | Percent
  | Ampersand
  | SingleQuote
  | LParen
  | RParen
  | Asterisk
  | Plus
  | Comma
  | Minus
  | Period
  | Slash
  | Zero
  | One
  | Two
  | Three
  | Four
  | Five
  | Six
  | Seven
  | Eight
  | Nine
  | Colon
  | Semicolon
  | LessThan
  | Equals
  | GreaterThan
  | Question
  | At
  | UppercaseA
  | UppercaseB
  | UppercaseC
  | UppercaseD
  | UppercaseE
  | UppercaseF
  | UppercaseG
  | UppercaseH
  | UppercaseI
  | UppercaseJ
  | UppercaseK
  | UppercaseL
  | UppercaseM
  | UppercaseN
  | UppercaseO
  | UppercaseP
  | UppercaseQ
  | UppercaseR
  | UppercaseS
  | UppercaseT
  | UppercaseU
  | UppercaseV
  | UppercaseW
  | UppercaseX
  | UppercaseY
  | UppercaseZ
  | LBracket
  | Backslash
  | RBracket
  | Caret
  | Underscore
  | Backquote
  | A
  | B
  | C
  | D
  | E
  | F
  | G
  | H
  | I
  | J
  | K
  | L
  | M
  | N
  | O
  | P
  | Q
  | R
  | S
  | T
  | U
  | V
  | W
  | X
  | Y
  | Z
  | LBrace
  | Pipe
  | RBrace
  | Tilde
deriving DecidableEq

/-- `ButtonKeyCode::from_u8` — the `num_traits::FromPrimitive` derive maps
each declared discriminant back to its variant and everything else to
`None`. -/
def ButtonKeyCode.from_u8 (n : Nat) : Option ButtonKeyCode :=
  match n with
  | 0 => some .Unknown
  | 1 => some .Left
  | 2 => some .Right
  | 3 => some .Home
  | 4 => some .End
  | 5 => some .Insert
  | 6 => some .Delete
  | 8 => some .Backspace
  | 13 => some .Return
  | 14 => some .Up
  | 15 => some .Down
  | 16 => some .PgUp
  | 17 => some .PgDown
  | 18 => some .Tab
  | 19 => some .Escape
  | 32 => some .Space
  | 33 => some .Exclamation
  | 34 => some .DoubleQuote
  | 35 => some .NumberSign
  | 36 => some .Dollar
  | 37 => some .Percent
  | 38 => some .Ampersand
  | 39 => some .SingleQuote
  | 40 => some .LParen
  | 41 => some .RParen
  | 42 => some .Asterisk
  | 43 => some .Plus
  | 44 => some .Comma
  | 45 => some .Minus
  | 46 => some .Period
  | 47 => some .Slash
  | 48 => some .Zero
  | 49 => some .One
  | 50 => some .Two
  | 51 => some .Three
  | 52 => some .Four
  | 53 => some .Five
  | 54 => some .Six
  | 55 => some .Seven
  | 56 => some .Eight
  | 57 => some .Nine
  | 58 => some .Colon
  | 59 => some .Semicolon
  | 60 => some .LessThan
  | 61 => some .Equals
  | 62 => some .GreaterThan
  | 63 => some .Question
  | 64 => some .At
  | 65 => some .UppercaseA
  | 66 => some .UppercaseB
  | 67 => some .UppercaseC
  | 68 => some .UppercaseD
  | 69 => some .UppercaseE
  | 70 => some .UppercaseF
  | 71 => some .UppercaseG
  | 72 => some .UppercaseH
  | 73 => some .UppercaseI
  | 74 => some .UppercaseJ
  | 75 => some .UppercaseK
  | 76 => some .UppercaseL
  | 77 => some .UppercaseM
  | 78 => some .UppercaseN
  | 79 => some .UppercaseO
  | 80 => some .UppercaseP
  | 81 => some .UppercaseQ
  | 82 => some .UppercaseR
  | 83 => some .UppercaseS
  | 84 => some .UppercaseT
  | 85 => some .UppercaseU
  | 86 => some .UppercaseV
  | 87 => some .UppercaseW
  | 88 => some .UppercaseX
  | 89 => some .UppercaseY
  | 90 => some .UppercaseZ
  | 91 => some .LBracket
  | 92 => some .Backslash
  | 93 => some .RBracket
  | 94 => some .Caret
  | 95 => some .Underscore
  | 96 => some .Backquote
  | 97 => some .A
  | 98 => some .B
  | 99 => some .C
  | 100 => some .D
  | 101 => some .E
  | 102 => some .F
  | 103 => some .G
  | 104 => some .H
  | 105 => some .I
  | 106 => some .J
  | 107 => some .K
  | 108 => some .L
  | 109 => some .M
  | 110 => some .N
  | 111 => some .O
  | 112 => some .P
  | 113 => some .Q
  | 114 => some .R
  | 115 => some .S
  | 116 => some .T
  | 117 => some .U
  | 118 => some .V
  | 119 => some .W
  | 120 => some .X
  | 121 => some .Y
  | 122 => some .Z
  | 123 => some .LBrace
  | 124 => some .Pipe
  | 125 => some .RBrace
  | 126 => some .Tilde
  | _ => none

/-- `ButtonKeyCode::to_u8` — the `num_traits::ToPrimitive` derive returns
the declared discriminant (always defined, so `unwrap_or_default` never
substitutes the default). -/
def ButtonKeyCode.to_u8 : ButtonKeyCode → Nat
  | .Unknown => 0
  | .Left => 1
  | .Right => 2
  | .Home => 3
  | .End => 4
  | .Insert => 5
  | .Delete => 6
  | .Backspace => 8
  | .Return => 13
  | .Up => 14
  | .Down => 15
  | .PgUp => 16
  | .PgDown => 17
  | .Tab => 18
  | .Escape => 19
  | .Space => 32
  | .Exclamation => 33
  | .DoubleQuote => 34
  | .NumberSign => 35
  | .Dollar => 36
  | .Percent => 37
  | .Ampersand => 38
  | .SingleQuote => 39
  | .LParen => 40
  | .RParen => 41
  | .Asterisk => 42
  | .Plus => 43
  | .Comma => 44
  | .Minus => 45
  | .Period => 46
  | .Slash => 47
  | .Zero => 48
  | .One => 49
  | .Two => 50
  | .Three => 51
  | .Four => 52
  | .Five => 53
  | .Six => 54
  | .Seven => 55
  | .Eight => 56
  | .Nine => 57
  | .Colon => 58
  | .Semicolon => 59
  | .LessThan => 60
  | .Equals => 61
  | .GreaterThan => 62
  | .Question => 63
  | .At => 64
  | .UppercaseA => 65
  | .UppercaseB => 66
  | .UppercaseC => 67
  | .UppercaseD => 68
  | .UppercaseE => 69
  | .UppercaseF => 70
  | .UppercaseG => 71
  | .UppercaseH => 72
  | .UppercaseI => 73
  | .UppercaseJ => 74
  | .UppercaseK => 75
  | .UppercaseL => 76
  | .UppercaseM => 77
  | .UppercaseN => 78
  | .UppercaseO => 79
  | .UppercaseP => 80
  | .UppercaseQ => 81
  | .UppercaseR => 82
  | .UppercaseS => 83
  | .UppercaseT => 84
  | .UppercaseU => 85
  | .UppercaseV => 86
  | .UppercaseW => 87
  | .UppercaseX => 88
  | .UppercaseY => 89
  | .UppercaseZ => 90
  | .LBracket => 91
  | .Backslash => 92
  | .RBracket => 93
  | .Caret => 94
  | .Underscore => 95
  | .Backquote => 96
  | .A => 97
  | .B => 98
  | .C => 99
  | .D => 100
  | .E => 101
  | .F => 102
  | .G => 103
  | .H => 104
  | .I => 105
  | .J => 106
  | .K => 107
  | .L => 108
  | .M => 109
  | .N => 110
  | .O => 111
  | .P => 112
  | .Q => 113
  | .R => 114
  | .S => 115
  | .T => 116
  | .U => 117
  | .V => 118
  | .W => 119
  | .X => 120
  | .Y => 121
  | .Z => 122
  | .LBrace => 123
  | .Pipe => 124
  | .RBrace => 125
  | .Tilde => 126

/-- `enum ClipEvent<'gc>` — an event type that can be handled by a movie
clip instance. The non-owning peer reference `InteractiveObject<'gc>`
carried by the drag/roll variants is abstracted as a type parameter `G`
(the payload is never inspected by any function of this core). -/
inductive ClipEvent (G : Type) where
  | Construct
  | Data
  | DragOut (to_ : Option G)
  | DragOver (from_ : Option G)
  | EnterFrame
  | Initialize
  | KeyUp
  | KeyDown
  | KeyPress (key_code : ButtonKeyCode)
  | Load
  | MouseUp
  | RightMouseUp
  | MiddleMouseUp
  | MouseUpInside
  | RightMouseUpInside
  | MiddleMouseUpInside
  | MouseDown
  | RightMouseDown
  | MiddleMouseDown
  | MouseMove
  | MouseMoveInside
  | Press (index : Nat)
  | RightPress
  | MiddlePress
  | RollOut (to_ : Option G)
  | RollOver (from_ : Option G)
  | Release (index : Nat)
  | RightRelease
  | MiddleRelease
  | ReleaseOutside
  | RightReleaseOutside
  | MiddleReleaseOutside
  | Unload
  | MouseWheel (delta : MouseWheelDelta)

/-- `ClipEvent::BUTTON_EVENT_FLAGS`. -/
def ClipEvent.BUTTON_EVENT_FLAGS : ClipEventFlag :=
  ClipEventFlag.from_bits_truncate
    (ClipEventFlag.DRAG_OUT.bits ||| ClipEventFlag.DRAG_OVER.bits |||
      ClipEventFlag.KEY_PRESS.bits ||| ClipEventFlag.PRESS.bits |||
      ClipEventFlag.ROLL_OUT.bits ||| ClipEventFlag.ROLL_OVER.bits |||
      ClipEventFlag.RELEASE.bits ||| ClipEventFlag.RELEASE_OUTSIDE.bits)

/-- `ClipEvent::flag`: the `swf::ClipEventFlag` corresponding to this event
type, if any. -/
def ClipEvent.flag {G : Type} : ClipEvent G → Option ClipEventFlag
  | .Construct => some ClipEventFlag.CONSTRUCT
  | .Data => some ClipEventFlag.DATA
  | .DragOut _ => some ClipEventFlag.DRAG_OUT
  | .DragOver _ => some ClipEventFlag.DRAG_OVER
  | .EnterFrame => some ClipEventFlag.ENTER_FRAME
  | .Initialize => some ClipEventFlag.INITIALIZE
  | .KeyDown => some ClipEventFlag.KEY_DOWN
  | .KeyPress _ => some ClipEventFlag.KEY_PRESS
  | .KeyUp => some ClipEventFlag.KEY_UP
  | .Load => some ClipEventFlag.LOAD
  | .MouseDown => some ClipEventFlag.MOUSE_DOWN
  | .MouseMove => some ClipEventFlag.MOUSE_MOVE
  | .MouseUp => some ClipEventFlag.MOUSE_UP
  | .Press _ => some ClipEventFlag.PRESS
  | .RollOut _ => some ClipEventFlag.ROLL_OUT
  | .RollOver _ => some ClipEventFlag.ROLL_OVER
  | .Release _ => some ClipEventFlag.RELEASE
  | .ReleaseOutside => some ClipEventFlag.RELEASE_OUTSIDE
  | .Unload => some ClipEventFlag.UNLOAD
  | _ => none

/-- `ClipEvent::propagates`: the event should be propagated down to
children. -/
def ClipEvent.propagates {G : Type} : ClipEvent G → Bool
  | .MouseUp => true
  | .MouseDown => true
  | .MouseMove => true
  | .KeyPress _ => true
  | .KeyDown => true
  | .KeyUp => true
  | _ => false

/-- `ClipEvent::is_button_event`: the variant's flag, when present,
intersects `BUTTON_EVENT_FLAGS`. -/
def ClipEvent.is_button_event {G : Type} (e : ClipEvent G) : Bool :=
  match e.flag with
  | some flag => flag.intersects ClipEvent.BUTTON_EVENT_FLAGS
  | none => false

/-- `ClipEvent::is_key_event`: keyUp, keyDown, keyPress. -/
def ClipEvent.is_key_event {G : Type} : ClipEvent G → Bool
  | .KeyDown => true
  | .KeyUp => true
  | .KeyPress _ => true
  | _ => false

/-- `ClipEvent::method_name`: the AVM1 event-handler method name for this
event. The source interns the literal into an `AvmString` via a
`StringContext`; interning is content-preserving, so the result is modelled
as the plain string. -/
def ClipEvent.method_name {G : Type} : ClipEvent G → Option String
  | .Construct => none
  | .Data => none
  | .DragOut _ => some (r"onDragOut")
  | .DragOver _ => some (r"onDragOver")
  | .EnterFrame => some (r"onEnterFrame")
  | .Initialize => none
  | .KeyDown => some (r"onKeyDown")
  | .KeyPress _ => none
  | .KeyUp => some (r"onKeyUp")
  | .Load => some (r"onLoad")
  | .MouseDown => some (r"onMouseDown")
  | .MouseMove => some (r"onMouseMove")
  | .MouseUp => some (r"onMouseUp")
  | .Press _ => some (r"onPress")
  | .RollOut _ => some (r"onRollOut")
  | .RollOver _ => some (r"onRollOver")
  | .Release _ => some (r"onRelease")
  | .ReleaseOutside => some (r"onReleaseOutside")
  | .Unload => some (r"onUnload")
  | _ => none

/-- `enum TextControlCode` — control inputs to a text field. -/
inductive TextControlCode where
  | MoveLeft
  | MoveLeftWord
  | MoveLeftLine
  | MoveLeftDocument
  | MoveRight
  | MoveRightWord
  | MoveRightLine
  | MoveRightDocument
  | SelectLeft
  | SelectLeftWord
  | SelectLeftLine
  | SelectLeftDocument
  | SelectRight
  | SelectRightWord
  | SelectRightLine
  | SelectRightDocument
  | SelectAll
  | Copy
  | Paste
  | Cut
  | Backspace
  | BackspaceWord
  | Enter
  | Delete
  | DeleteWord
deriving DecidableEq

/-- `TextControlCode::is_edit_input`: whether this event edits the text
content. -/
def TextControlCode.is_edit_input : TextControlCode → Bool
  | .Paste => true
  | .Cut => true
  | .Enter => true
  | .Backspace => true
  | .BackspaceWord => true
  | .Delete => true
  | .DeleteWord => true
  | _ => false

/-- Claim C1: `ClipEvent::propagates()` returns true exactly for the six
anycast variants `MouseUp`, `MouseDown`, `MouseMove`, `KeyUp`, `KeyDown`
and `KeyPress` (with any `key_code` payload), and false for every other
variant. -/
theorem clip_event_propagates_iff_anycast {G : Type} (e : ClipEvent G) :
    e.propagates = true ↔
      e = .MouseUp ∨ e = .MouseDown ∨ e = .MouseMove ∨
      e = .KeyUp ∨ e = .KeyDown ∨ ∃ k, e = .KeyPress k := by
  cases e <;> simp [ClipEvent.propagates]

/-- Claim C2: for every `ClipEvent` variant, `is_button_event()` is true iff
`flag()` returns a flag and that flag intersects `BUTTON_EVENT_FLAGS`
(DRAG_OUT, DRAG_OVER, KEY_PRESS, PRESS, ROLL_OUT, ROLL_OVER, RELEASE,
RELEASE_OUTSIDE); in particular it is true for `Press`, false for
`MouseUp`, and false for every variant whose `flag()` is none. -/
theorem clip_event_is_button_event_iff_flag {G : Type} :
    (∀ e : ClipEvent G, e.is_button_event = true ↔
      ∃ f, e.flag = some f ∧
        f.intersects ClipEvent.BUTTON_EVENT_FLAGS = true) ∧
    (∀ i : Nat, (ClipEvent.Press i : ClipEvent G).is_button_event = true) ∧
    ((ClipEvent.MouseUp : ClipEvent G).is_button_event = false) ∧
    (∀ e : ClipEvent G, e.flag = none → e.is_button_event = false) := by
  refine ⟨?_, ?_, ?_, ?_⟩
  · intro e
    cases e <;>
      simp [ClipEvent.is_button_event, ClipEvent.flag, ClipEventFlag.intersects]
  · intro i
    rfl
  · rfl
  · intro e h
    cases e <;> simp_all [ClipEvent.flag, ClipEvent.is_button_event]

/-- Witness for C2: `RightMouseUp` has no flag and is not a button event;
`Press 0` is a button event. -/
theorem clip_event_is_button_event_iff_flag_witness :
    (ClipEvent.RightMouseUp : ClipEvent Unit).flag = none ∧
    (ClipEvent.RightMouseUp : ClipEvent Unit).is_button_event = false ∧
    (ClipEvent.Press 0 : ClipEvent Unit).is_button_event = true :=
  ⟨rfl,
    (@clip_event_is_button_event_iff_flag Unit).2.2.2 ClipEvent.RightMouseUp rfl,
    (@clip_event_is_button_event_iff_flag Unit).2.1 0⟩

/-- Claim C3: `ClipEvent::method_name()` is a total function returning an
optional handler identifier: none for `Construct`, `Data`, `Initialize` and
`KeyPress` (and for every variant without a listed handler, such as
`MouseWheel` and the right/middle button variants), and the listed handler
string for the mapped variants, e.g. `onPress` for `Press` with any
index. -/
theorem clip_event_method_name_table {G : Type} :
    ((ClipEvent.Construct : ClipEvent G).method_name = none) ∧
    ((ClipEvent.Data : ClipEvent G).method_name = none) ∧
    ((ClipEvent.Initialize : ClipEvent G).method_name = none) ∧
    (∀ k, (ClipEvent.KeyPress k : ClipEvent G).method_name = none) ∧
    (∀ d, (ClipEvent.MouseWheel d : ClipEvent G).method_name = none) ∧
    ((ClipEvent.RightMouseUp : ClipEvent G).method_name = none) ∧
    ((ClipEvent.MiddleMouseUp : ClipEvent G).method_name = none) ∧
    ((ClipEvent.MouseUpInside : ClipEvent G).method_name = none) ∧
    ((ClipEvent.RightMouseUpInside : ClipEvent G).method_name = none) ∧
    ((ClipEvent.MiddleMouseUpInside : ClipEvent G).method_name = none) ∧
    ((ClipEvent.RightMouseDown : ClipEvent G).method_name = none) ∧
    ((ClipEvent.MiddleMouseDown : ClipEvent G).method_name = none) ∧
    ((ClipEvent.MouseMoveInside : ClipEvent G).method_name = none) ∧
    ((ClipEvent.RightPress : ClipEvent G).method_name = none) ∧
    ((ClipEvent.MiddlePress : ClipEvent G).method_name = none) ∧
    ((ClipEvent.RightRelease : ClipEvent G).method_name = none) ∧
    ((ClipEvent.MiddleRelease : ClipEvent G).method_name = none) ∧
    ((ClipEvent.RightReleaseOutside : ClipEvent G).method_name = none) ∧
    ((ClipEvent.MiddleReleaseOutside : ClipEvent G).method_name = none) ∧
    (∀ p, (ClipEvent.DragOut p : ClipEvent G).method_name = some (r"onDragOut")) ∧
    (∀ p, (ClipEvent.DragOver p : ClipEvent G).method_name = some (r"onDragOver")) ∧
    ((ClipEvent.EnterFrame : ClipEvent G).method_name = some (r"onEnterFrame")) ∧
    ((ClipEvent.KeyDown : ClipEvent G).method_name = some (r"onKeyDown")) ∧
    ((ClipEvent.KeyUp : ClipEvent G).method_name = some (r"onKeyUp")) ∧
    ((ClipEvent.Load : ClipEvent G).method_name = some (r"onLoad")) ∧
    ((ClipEvent.MouseDown : ClipEvent G).method_name = some (r"onMouseDown")) ∧
    ((ClipEvent.MouseMove : ClipEvent G).method_name = some (r"onMouseMove")) ∧
    ((ClipEvent.MouseUp : ClipEvent G).method_name = some (r"onMouseUp")) ∧
    (∀ i, (ClipEvent.Press i : ClipEvent G).method_name = some (r"onPress")) ∧
    (∀ p, (ClipEvent.RollOut p : ClipEvent G).method_name = some (r"onRollOut")) ∧
    (∀ p, (ClipEvent.RollOver p : ClipEvent G).method_name = some (r"onRollOver")) ∧
    (∀ i, (ClipEvent.Release i : ClipEvent G).method_name = some (r"onRelease")) ∧
    ((ClipEvent.ReleaseOutside : ClipEvent G).method_name = some (r"onReleaseOutside")) ∧
    ((ClipEvent.Unload : ClipEvent G).method_name = some (r"onUnload")) := by
  and_intros <;> intros <;> rfl

/-- Claim C9: `TextControlCode::is_edit_input()` returns true exactly for
the seven codes `Paste`, `Cut`, `Enter`, `Backspace`, `BackspaceWord`,
`Delete`, `DeleteWord`, and false for every other code, including all
cursor-movement and selection codes. -/
theorem text_control_code_is_edit_input_iff (c : TextControlCode) :
    c.is_edit_input = true ↔
      c = .Paste ∨ c = .Cut ∨ c = .Enter ∨ c = .Backspace ∨
      c = .BackspaceWord ∨ c = .Delete ∨ c = .DeleteWord := by
  cases c <;> simp [TextControlCode.is_edit_input]

/-- `struct KeyCode(u32)` — Flash virtual keycode; equality is by numeric
value. Only the named constants consulted by `ButtonKeyCode::from_key_code`
and the claims are declared here (the source declares the full Flash
constant table); the type itself covers the whole numeric space. -/
structure KeyCode where
  value : Nat
deriving DecidableEq

def KeyCode.BACKSPACE : KeyCode := ⟨8⟩

def KeyCode.TAB : KeyCode := ⟨9⟩

def KeyCode.ENTER : KeyCode := ⟨13⟩

def KeyCode.ESCAPE : KeyCode := ⟨27⟩

def KeyCode.PAGE_UP : KeyCode := ⟨33⟩

def KeyCode.PAGE_DOWN : KeyCode := ⟨34⟩

def KeyCode.END : KeyCode := ⟨35⟩

def KeyCode.HOME : KeyCode := ⟨36⟩

def KeyCode.LEFT : KeyCode := ⟨37⟩

def KeyCode.UP : KeyCode := ⟨38⟩

def KeyCode.RIGHT : KeyCode := ⟨39⟩

def KeyCode.DOWN : KeyCode := ⟨40⟩

def KeyCode.INSERT : KeyCode := ⟨45⟩

def KeyCode.DELETE : KeyCode := ⟨46⟩

def KeyCode.F1 : KeyCode := ⟨112⟩

/-- `ButtonKeyCode::from_key_code` — the partial table from `KeyCode` to
SWF4 key-press codes (a Rust `match` on the named constants, i.e.
successive equality tests in declaration order). -/
def ButtonKeyCode.from_key_code (key_code : KeyCode) : Option ButtonKeyCode :=
  if key_code = KeyCode.LEFT then some .Left
  else if key_code = KeyCode.RIGHT then some .Right
  else if key_code = KeyCode.HOME then some .Home
  else if key_code = KeyCode.END then some .End
  else if key_code = KeyCode.INSERT then some .Insert
  else if key_code = KeyCode.DELETE then some .Delete
  else if key_code = KeyCode.BACKSPACE then some .Backspace
  else if key_code = KeyCode.ENTER then some .Return
  else if key_code = KeyCode.UP then some .Up
  else if key_code = KeyCode.DOWN then some .Down
  else if key_code = KeyCode.PAGE_UP then some .PgUp
  else if key_code = KeyCode.PAGE_DOWN then some .PgDown
  else if key_code = KeyCode.ESCAPE then some .Escape
  else if key_code = KeyCode.TAB then some .Tab
  else none

/-- Modelled from the spec: `crate::input::InputEvent` is not part of this
source tree. Per the spec, `ButtonKeyCode::from_input_event` distinguishes
a text-input occurrence carrying a codepoint, a key-down occurrence
carrying a `KeyCode` (its further fields are elided by the source match),
and every other kind of input occurrence, collapsed here into `Other`. -/
inductive InputEvent where
  | TextInput (codepoint : Char)
  | KeyDown (key_code : KeyCode)
  | Other

/-- `ButtonKeyCode::from_input_event`. In the source the printable-ASCII
branch is `Some(ButtonKeyCode::from_u8(*codepoint as u8).unwrap())`; it is
embedded as `from_u8` applied to the truncated codepoint, which agrees with
the source whenever the `unwrap` succeeds — and the C10 theorem proves
`from_u8` is `some` on all of `32..=126`, so the `unwrap` never panics.
`*codepoint as u8` truncates the scalar value mod 256 (a no-op under the
guard). A text-input occurrence failing the range guard falls through to
the wildcard arm. -/
def ButtonKeyCode.from_input_event : InputEvent → Option ButtonKeyCode
  | .TextInput codepoint =>
      if 32 ≤ codepoint.toNat ∧ codepoint.toNat ≤ 126 then
        ButtonKeyCode.from_u8 (codepoint.toNat % 256)
      else
        none
  | .KeyDown key_code => ButtonKeyCode.from_key_code key_code
  | .Other => none

/-- `enum GamepadButton` — normalized gamepad button identity. -/
inductive GamepadButton where
  | South
  | East
  | North
  | West
  | LeftTrigger
  | LeftTrigger2
  | RightTrigger
  | RightTrigger2
  | Select
  | Start
  | DPadUp
  | DPadDown
  | DPadLeft
  | DPadRight
deriving DecidableEq

/-- `struct ParseEnumError` — the distinct parse-failure value. -/
inductive ParseEnumError where
  | mk
deriving DecidableEq

/-- `impl FromStr for GamepadButton` — a Rust `match` on string literals,
i.e. successive equality tests; any other string yields `ParseEnumError`. -/
def GamepadButton.from_str (s : String) : Except ParseEnumError GamepadButton :=
  if s = r"south" then .ok .South
  else if s = r"east" then .ok .East
  else if s = r"north" then .ok .North
  else if s = r"west" then .ok .West
  else if s = r"left-trigger" then .ok .LeftTrigger
  else if s = r"left-trigger-2" then .ok .LeftTrigger2
  else if s = r"right-trigger" then .ok .RightTrigger
  else if s = r"right-trigger-2" then .ok .RightTrigger2
  else if s = r"select" then .ok .Select
  else if s = r"start" then .ok .Start
  else if s = r"dpad-up" then .ok .DPadUp
  else if s = r"dpad-down" then .ok .DPadDown
  else if s = r"dpad-left" then .ok .DPadLeft
  else if s = r"dpad-right" then .ok .DPadRight
  else .error ParseEnumError.mk

/-- `enum NamedKey` — named logical keys (w3c uievents-key). -/
inductive NamedKey where
  | Alt
  | AltGraph
  | CapsLock
  | Control
  | Fn
  | FnLock
  | Super
  | NumLock
  | ScrollLock
  | Shift
  | Symbol
  | SymbolLock
  | Enter
  | Tab
  | ArrowDown
  | ArrowLeft
  | ArrowRight
  | ArrowUp
  | End
  | Home
  | PageDown
  | PageUp
  | Backspace
  | Clear
  | Copy
  | CrSel
  | Cut
  | Delete
  | EraseEof
  | ExSel
  | Insert
  | Paste
  | Redo
  | Undo
  | ContextMenu
  | Escape
  | Pause
  | Play
  | Select
  | ZoomIn
  | ZoomOut
  | PrintScreen
  | F1
  | F2
  | F3
  | F4
  | F5
  | F6
  | F7
  | F8
  | F9
  | F10
  | F11
  | F12
  | F13
  | F14
  | F15
  | F16
  | F17
  | F18
  | F19
  | F20
  | F21
  | F22
  | F23
  | F24
  | F25
  | F26
  | F27
  | F28
  | F29
  | F30
  | F31
  | F32
  | F33
  | F34
  | F35
deriving DecidableEq

/-- `enum LogicalKey` — layout-resolved key meaning. -/
inductive LogicalKey where
  | Unknown
  | Character (ch : Char)
  | Named (key : NamedKey)
deriving DecidableEq

/-- `LogicalKey::character`: explicit `Character` payloads pass through; a
fixed set of named control keys projects to the historical control
characters; all other named keys (and `Unknown`) yield no character. -/
def LogicalKey.character : LogicalKey → Option Char
  | .Unknown => none
  | .Character ch => some ch
  | .Named .Backspace => some (Char.ofNat 8)
  | .Named .Tab => some (Char.ofNat 9)
  | .Named .Enter => some (Char.ofNat 13)
  | .Named .Escape => some (Char.ofNat 27)
  | .Named .Delete => some (Char.ofNat 127)
  | .Named _ => none

/-- Helper: the `ButtonKeyCode` enumeration covers every discriminant in
`32..=126` — `from_u8` returns `some` there and `to_u8` recovers the
discriminant. -/
theorem buttonKeyCode_from_u8_covers_printable :
    ∀ n, n ≤ 126 → 32 ≤ n →
      (ButtonKeyCode.from_u8 n).map ButtonKeyCode.to_u8 = some n := by
  decide

/-- Claim C4: `ButtonKeyCode::from_input_event` resolves by exactly two
tiers: a text-input occurrence with codepoint in `32..=126` returns the
`ButtonKeyCode` with that numeric value (e.g. codepoint 65 yields `UppercaseA`);
a key-down occurrence returns `from_key_code`, whose domain is exactly the
fourteen navigation/editing keys (e.g. `ENTER` yields `Return`, `F1` yields
none); every other input occurrence yields none. -/
theorem button_key_code_from_input_event_two_tier :
    (∀ cp : Char, 32 ≤ cp.toNat → cp.toNat ≤ 126 →
      ∃ k, ButtonKeyCode.from_input_event (.TextInput cp) = some k ∧
        k.to_u8 = cp.toNat) ∧
    (ButtonKeyCode.from_input_event (.TextInput (Char.ofNat 65)) =
      some .UppercaseA) ∧
    (∀ cp : Char, cp.toNat < 32 ∨ 126 < cp.toNat →
      ButtonKeyCode.from_input_event (.TextInput cp) = none) ∧
    (∀ kc : KeyCode, ButtonKeyCode.from_input_event (.KeyDown kc) =
      ButtonKeyCode.from_key_code kc) ∧
    (∀ kc : KeyCode, (ButtonKeyCode.from_key_code kc).isSome = true ↔
      (kc = KeyCode.LEFT ∨ kc = KeyCode.RIGHT ∨ kc = KeyCode.HOME ∨
       kc = KeyCode.END ∨ kc = KeyCode.INSERT ∨ kc = KeyCode.DELETE ∨
       kc = KeyCode.BACKSPACE ∨ kc = KeyCode.ENTER ∨ kc = KeyCode.UP ∨
       kc = KeyCode.DOWN ∨ kc = KeyCode.PAGE_UP ∨ kc = KeyCode.PAGE_DOWN ∨
       kc = KeyCode.ESCAPE ∨ kc = KeyCode.TAB)) ∧
    (ButtonKeyCode.from_key_code KeyCode.ENTER = some .Return) ∧
    (ButtonKeyCode.from_key_code KeyCode.F1 = none) ∧
    (ButtonKeyCode.from_input_event .Other = none) := by
  refine ⟨?_, by decide, ?_, fun kc => rfl, ?_, by decide, by decide, rfl⟩
  · intro cp h32 h126
    have hmod : cp.toNat % 256 = cp.toNat := Nat.mod_eq_of_lt (by omega)
    have hbr : ButtonKeyCode.from_input_event (.TextInput cp)
        = ButtonKeyCode.from_u8 cp.toNat := by
      show (if 32 ≤ cp.toNat ∧ cp.toNat ≤ 126 then
          ButtonKeyCode.from_u8 (cp.toNat % 256) else none)
        = ButtonKeyCode.from_u8 cp.toNat
      rw [if_pos ⟨h32, h126⟩, hmod]
    have hcov := buttonKeyCode_from_u8_covers_printable cp.toNat h126 h32
    cases hfu : ButtonKeyCode.from_u8 cp.toNat with
    | none => simp [hfu] at hcov
    | some k =>
      refine ⟨k, by rw [hbr, hfu], ?_⟩
      simpa [hfu] using hcov
  · intro cp h
    have hc : ¬(32 ≤ cp.toNat ∧ cp.toNat ≤ 126) := by omega
    show (if 32 ≤ cp.toNat ∧ cp.toNat ≤ 126 then
        ButtonKeyCode.from_u8 (cp.toNat % 256) else none) = none
    rw [if_neg hc]
  · intro kc
    constructor
    · intro h
      by_contra hne
      push_neg at hne
      obtain ⟨n1, n2, n3, n4, n5, n6, n7, n8, n9, n10, n11, n12, n13, n14⟩ := hne
      unfold ButtonKeyCode.from_key_code at h
      rw [if_neg n1, if_neg n2, if_neg n3, if_neg n4, if_neg n5, if_neg n6,
        if_neg n7, if_neg n8, if_neg n9, if_neg n10, if_neg n11, if_neg n12,
        if_neg n13, if_neg n14] at h
      simp at h
    · intro h
      rcases h with h | h | h | h | h | h | h | h | h | h | h | h | h | h <;>
        subst h <;> rfl

/-- Witness for C4 at codepoint 65 (printable tier) and codepoint 10 (below
the printable range). -/
theorem button_key_code_from_input_event_two_tier_witness :
    (∃ k, ButtonKeyCode.from_input_event (.TextInput (Char.ofNat 65)) = some k ∧
      ButtonKeyCode.to_u8 k = Char.toNat (Char.ofNat 65)) ∧
    ButtonKeyCode.from_input_event (.TextInput (Char.ofNat 10)) = none :=
  ⟨button_key_code_from_input_event_two_tier.1 (Char.ofNat 65)
      (by decide) (by decide),
    button_key_code_from_input_event_two_tier.2.2.1 (Char.ofNat 10)
      (by decide)⟩

/-- Claim C10: the `ButtonKeyCode` enumeration has a variant for every
discriminant in `32..=126`, so `from_u8` returns `some` for every such `n`;
consequently the `unwrap` in the printable-ASCII branch of
`from_input_event` is unreachable under the branch guard — the branch
always produces a value. -/
theorem button_key_code_from_u8_printable_total :
    (∀ n : Nat, 32 ≤ n → n ≤ 126 →
      (ButtonKeyCode.from_u8 n).isSome = true) ∧
    (∀ cp : Char, 32 ≤ cp.toNat → cp.toNat ≤ 126 →
      (ButtonKeyCode.from_input_event (.TextInput cp)).isSome = true) := by
  have h1 : ∀ n : Nat, 32 ≤ n → n ≤ 126 →
      (ButtonKeyCode.from_u8 n).isSome = true := by
    intro n h32 h126
    have h := buttonKeyCode_from_u8_covers_printable n h126 h32
    cases hfu : ButtonKeyCode.from_u8 n with
    | none => simp [hfu] at h
    | some k => simp
  refine ⟨h1, ?_⟩
  intro cp h32 h126
  have hmod : cp.toNat % 256 = cp.toNat := Nat.mod_eq_of_lt (by omega)
  have hbr : ButtonKeyCode.from_input_event (.TextInput cp)
      = ButtonKeyCode.from_u8 cp.toNat := by
    show (if 32 ≤ cp.toNat ∧ cp.toNat ≤ 126 then
        ButtonKeyCode.from_u8 (cp.toNat % 256) else none)
      = ButtonKeyCode.from_u8 cp.toNat
    rw [if_pos ⟨h32, h126⟩, hmod]
  rw [hbr]
  exact h1 cp.toNat h32 h126

/-- Witness for C10 at discriminant 65 and codepoint 65. -/
theorem button_key_code_from_u8_printable_total_witness :
    (ButtonKeyCode.from_u8 65).isSome = true ∧
    (ButtonKeyCode.from_input_event (.TextInput (Char.ofNat 65))).isSome = true :=
  ⟨button_key_code_from_u8_printable_total.1 65 (by decide) (by decide),
    button_key_code_from_u8_printable_total.2 (Char.ofNat 65)
      (by decide) (by decide)⟩

/-- Claim C7: `LogicalKey::character()` is a two-tier partial projection:
`Character(ch)` passes `ch` through; the five named keys Backspace, Tab,
Enter, Escape, Delete return U+0008, U+0009, U+000D, U+001B, U+007F
respectively; `Unknown` and every other named key return no character. -/
theorem logical_key_character_two_tier :
    (∀ ch : Char, (LogicalKey.Character ch).character = some ch) ∧
    (LogicalKey.Unknown.character = none) ∧
    ((LogicalKey.Named .Backspace).character = some (Char.ofNat 8)) ∧
    ((LogicalKey.Named .Tab).character = some (Char.ofNat 9)) ∧
    ((LogicalKey.Named .Enter).character = some (Char.ofNat 13)) ∧
    ((LogicalKey.Named .Escape).character = some (Char.ofNat 27)) ∧
    ((LogicalKey.Named .Delete).character = some (Char.ofNat 127)) ∧
    (∀ nk : NamedKey, nk ≠ .Backspace → nk ≠ .Tab → nk ≠ .Enter →
      nk ≠ .Escape → nk ≠ .Delete →
      (LogicalKey.Named nk).character = none) := by
  refine ⟨fun ch => rfl, rfl, rfl, rfl, rfl, rfl, rfl, ?_⟩
  intro nk h1 h2 h3 h4 h5
  cases nk <;> simp_all [LogicalKey.character]

/-- Witness for C7 at the named key `F1`. -/
theorem logical_key_character_two_tier_witness :
    (LogicalKey.Named NamedKey.F1).character = none :=
  logical_key_character_two_tier.2.2.2.2.2.2.2 NamedKey.F1
    (by decide) (by decide) (by decide) (by decide) (by decide)

/-- The fixed vocabulary of gamepad-button tokens. -/
def gamepadButtonTokens : List String :=
  [r"south", r"east", r"north", r"west", r"left-trigger", r"left-trigger-2",
    r"right-trigger", r"right-trigger-2", r"select", r"start", r"dpad-up",
    r"dpad-down", r"dpad-left", r"dpad-right"]

/-- Claim C8: `GamepadButton` string parsing is total-with-failure: each of
the fourteen fixed kebab-case tokens parses to the corresponding variant,
and every other input string returns the distinct parse-error value, never
a default button. -/
theorem gamepad_button_from_str_total_with_failure :
    (GamepadButton.from_str (r"south") = .ok .South) ∧
    (GamepadButton.from_str (r"east") = .ok .East) ∧
    (GamepadButton.from_str (r"north") = .ok .North) ∧
    (GamepadButton.from_str (r"west") = .ok .West) ∧
    (GamepadButton.from_str (r"left-trigger") = .ok .LeftTrigger) ∧
    (GamepadButton.from_str (r"left-trigger-2") = .ok .LeftTrigger2) ∧
    (GamepadButton.from_str (r"right-trigger") = .ok .RightTrigger) ∧
    (GamepadButton.from_str (r"right-trigger-2") = .ok .RightTrigger2) ∧
    (GamepadButton.from_str (r"select") = .ok .Select) ∧
    (GamepadButton.from_str (r"start") = .ok .Start) ∧
    (GamepadButton.from_str (r"dpad-up") = .ok .DPadUp) ∧
    (GamepadButton.from_str (r"dpad-down") = .ok .DPadDown) ∧
    (GamepadButton.from_str (r"dpad-left") = .ok .DPadLeft) ∧
    (GamepadButton.from_str (r"dpad-right") = .ok .DPadRight) ∧
    (∀ s : String, s ∉ gamepadButtonTokens →
      GamepadButton.from_str s = .error ParseEnumError.mk) := by
  refine ⟨rfl, rfl, rfl, rfl, rfl, rfl, rfl, rfl, rfl, rfl, rfl, rfl,
    rfl, rfl, ?_⟩
  intro s hs
  simp only [gamepadButtonTokens, List.mem_cons, List.not_mem_nil, or_false,
    not_or] at hs
  obtain ⟨n1, n2, n3, n4, n5, n6, n7, n8, n9, n10, n11, n12, n13, n14⟩ := hs
  simp [GamepadButton.from_str, n1, n2, n3, n4, n5, n6, n7, n8, n9, n10,
    n11, n12, n13, n14]

/-- Witness for C8 at the unrecognized token `invalid`. -/
theorem gamepad_button_from_str_total_with_failure_witness :
    GamepadButton.from_str (r"invalid") = .error ParseEnumError.mk :=
  gamepad_button_from_str_total_with_failure.2.2.2.2.2.2.2.2.2.2.2.2.2.2
    (r"invalid") (by decide)

end RuffleEvents
